import Mathlib

/-!
Verification of the Discord voice-transcription bot against its design
specification.  The Python sources are shallowly embedded: pure decision
logic becomes Lean functions, the external Gemini call and the Discord
platform become explicit oracles, and the stateful orchestrator becomes
explicit state passing (with a small step relation for the one genuinely
concurrent scenario).
-/

namespace DTG

/-! ### Gemini client (src/gemini_client.py, lines 8-45)

The external `generate_content` call is abstracted as an oracle indexed by
attempt number: it either raises an error (a `GenError`) or returns a
response whose optional `text` field is modelled by `Option String`
(`getattr(resp, "text", default)` in the source). -/

/-- Error kinds of the external generative-AI service, as classified by the
spec's retry policy (section 4.4). -/
inductive GenError where
  | quotaExhausted
  | serviceUnavailable
  | internalError
  | deadlineExceeded
  | safetyBlock
  | payloadTooLarge
  | malformedInput
  deriving DecidableEq

/-- Spec section 4.4: transient errors are resource exhausted / quota,
service unavailable, internal error, deadline exceeded; everything else is
permanent. -/
def isTransient : GenError → Bool
  | .quotaExhausted => true
  | .serviceUnavailable => true
  | .internalError => true
  | .deadlineExceeded => true
  | _ => false

/-- Observable outcome of one `transcribe_audio` invocation: how many times
the external `generate_content` call was made, which backoff delays (in
seconds) were slept before retries, and the final result (`Except.error`
models a raised exception, `Except.ok` a normal return). -/
structure TranscribeRun where
  attempts : Nat
  delays : List Nat
  result : Except GenError (Option String)

/-- src/gemini_client.py lines 15-25, `GeminiClient.transcribe_audio`:
if the file does not exist, return `None`; otherwise run the external
`generate_content` call once in an executor and return `getattr(resp,
"text", None)`.  There is no try/except around the call, so a raised error
propagates to the caller.  `fileExists` abstracts `os.path.exists`, `gen`
is the external-call oracle (indexed by attempt number). -/
def transcribe_audio (fileExists : Bool)
    (gen : Nat → Except GenError (Option String)) : TranscribeRun :=
  if fileExists then
    match gen 0 with
    | .ok t => ⟨1, [], .ok t⟩
    | .error e => ⟨1, [], .error e⟩
  else ⟨0, [], .ok none⟩

/-- src/gemini_client.py lines 27-35, `GeminiClient.enhance_transcription`:
run the external call once (`call` is its outcome); a raised exception
propagates (there is no try/except), a response without a `text` attribute
yields the original `raw` text (`getattr(resp, "text", raw)`). -/
def enhance_transcription (call : Except GenError (Option String))
    (raw : String) : Except GenError String :=
  match call with
  | .error e => .error e
  | .ok none => .ok raw
  | .ok (some t) => .ok t

/-! #### Claim C1 (retry policy) -/

/-- Claim C1, counterexample.  The claim states that a transient failure
(here: quota exhausted) is retried up to `maxRetries = 5` times with
backoff delays `2*2^n`.  On the code, a call whose external oracle always
fails with `quotaExhausted` — a transient error by the spec's own
classification — performs exactly one attempt, sleeps no backoff delay at
all, and propagates the error. -/
theorem transcribe_no_retry_on_transient :
    (transcribe_audio true (fun _ => .error .quotaExhausted)).attempts = 1
    ∧ (transcribe_audio true (fun _ => .error .quotaExhausted)).delays = []
    ∧ (transcribe_audio true (fun _ => .error .quotaExhausted)).result
        = .error .quotaExhausted
    ∧ isTransient .quotaExhausted = true := by
  refine ⟨rfl, rfl, rfl, rfl⟩

/-- Claim C1, amended: `transcribe_audio` makes exactly one external call
per invocation when the audio file exists, with no retry and no backoff
delay; every error — transient or permanent alike — propagates to the
caller after that single attempt (so permanent errors do get exactly one
attempt, as claimed, but transient errors are not retried either). -/
theorem transcribe_exactly_one_attempt
    (gen : Nat → Except GenError (Option String)) :
    (transcribe_audio true gen).attempts = 1
    ∧ (transcribe_audio true gen).delays = []
    ∧ (∀ e, gen 0 = .error e → (transcribe_audio true gen).result = .error e)
    ∧ (∀ t, gen 0 = .ok t → (transcribe_audio true gen).result = .ok t) := by
  unfold transcribe_audio
  refine ⟨?_, ?_, ?_, ?_⟩
  · cases h : gen 0 <;> simp [h]
  · cases h : gen 0 <;> simp [h]
  · intro e he; simp [he]
  · intro t ht; simp [ht]

/-- Claim C1, witness for the amended theorem at a concrete oracle that
fails permanently (safety block) on its single attempt. -/
theorem transcribe_exactly_one_attempt_witness :
    (transcribe_audio true (fun _ => .error .safetyBlock)).attempts = 1
    ∧ (transcribe_audio true (fun _ => .error .safetyBlock)).result
        = .error .safetyBlock :=
  ⟨(transcribe_exactly_one_attempt (fun _ => .error .safetyBlock)).1,
   (transcribe_exactly_one_attempt (fun _ => .error .safetyBlock)).2.2.1
     .safetyBlock rfl⟩

/-! #### Claim C4 (enhance never fails) -/

/-- Claim C4, counterexample.  The claim states that when the underlying
external call errors, `enhance_transcription` returns the original input
text unchanged instead of raising or propagating.  On the code there is no
try/except: an internal error raised by the external call propagates out
of `enhance_transcription`, and the result is not the original text. -/
theorem enhance_propagates_error :
    enhance_transcription (.error .internalError) "hello"
      = .error .internalError
    ∧ enhance_transcription (.error .internalError) "hello" ≠ .ok ("hello") := by
  constructor
  · rfl
  · intro h; exact Except.noConfusion h

/-- Claim C4, amended: `enhance_transcription` returns the original text
unchanged only when the external call succeeds with a response lacking a
`text` field (the `getattr` default); a successful response with text
yields that text, and an exception raised by the external call propagates
to the caller (in `process_recording` it lands in the generic handler and
the pipeline produces no result). -/
theorem enhance_returns_raw_without_text (raw t : String) :
    enhance_transcription (.ok none) raw = .ok raw
    ∧ enhance_transcription (.ok (some t)) raw = .ok t
    ∧ (∀ e, enhance_transcription (.error e) raw = .error e) :=
  ⟨rfl, rfl, fun _ => rfl⟩

/-! #### Claim C10 (missing input file) -/

/-- Claim C10: for an audio path that does not exist, `transcribe_audio`
returns `None` normally (no exception) and the external `generate_content`
call is never invoked, whatever the oracle would have answered. -/
theorem transcribe_missing_file_returns_none
    (gen : Nat → Except GenError (Option String)) :
    (transcribe_audio false gen).attempts = 0
    ∧ (transcribe_audio false gen).result = .ok none :=
  ⟨rfl, rfl⟩

/-! ### Presence event router (src/main.py, lines 199-231)

`on_voice_state_update` is embedded as a pure decision function: the guild
supplies the current (post-change) channel occupancy, the settings come
from `config_manager.get_channels`, and the produced effect (`noop`, start
recording on a target channel, stop recording) is returned as a value. -/

/-- A reference to a voice channel as carried by a `VoiceState`
(`before.channel` / `after.channel`): its id and the id of the category it
sits in (`channel.category_id`). -/
structure ChanRef where
  id : Nat
  categoryId : Option Nat
  deriving DecidableEq

/-- A guild member as far as the router looks at it. -/
structure GMember where
  isBot : Bool
  deriving DecidableEq

/-- A voice channel of the guild with its current occupancy. -/
structure VoiceChannel where
  id : Nat
  categoryId : Option Nat
  members : List GMember
  deriving DecidableEq

/-- The guild as seen through `bot.get_channel`: which category ids resolve
to a category object, and the voice channels (with current occupancy).
A category object's `voice_channels` attribute is exactly the voice
channels whose `category_id` equals the category's id. -/
structure Guild where
  categoryIds : List Nat
  channels : List VoiceChannel
  deriving DecidableEq

/-- Per-guild settings returned by `config_manager.get_channels`. -/
structure Settings where
  voice_category_id : Option Nat
  text_channel_id : Option Nat
  deriving DecidableEq

/-- The router's decision. -/
inductive RouterAction where
  | noop
  | startRecording (target : Nat)
  | stopRecording
  deriving DecidableEq

/-- src/main.py line 212-213, `is_target_channel`: the channel is non-empty
(truthy) and its `category_id` equals the configured category. -/
def is_target_channel (catId : Nat) : Option ChanRef → Bool
  | none => false
  | some c => c.categoryId = some catId

/-- The voice channels of the configured category
(`category.voice_channels`). -/
def categoryVoiceChannels (g : Guild) (catId : Nat) : List VoiceChannel :=
  g.channels.filter (fun ch => ch.categoryId = some catId)

/-- The non-bot occupants of a channel
(`[m for m in channel.members if not m.bot]`). -/
def nonBotMembers (ch : VoiceChannel) : List GMember :=
  ch.members.filter (fun m => !m.isBot)

/-- src/main.py lines 199-231, `on_voice_state_update`: ignore bots; no-op
when no voice category is configured; start recording on `after.channel`
when `before.channel` is `None` and `after.channel` is in the configured
category; otherwise, when `before.channel` is in the configured category,
stop recording if the category object is found and every voice channel in
it has zero non-bot occupants. -/
def on_voice_state_update (g : Guild) (settings : Settings)
    (memberIsBot : Bool) (before after : Option ChanRef) : RouterAction :=
  if memberIsBot then .noop
  else
    match settings.voice_category_id with
    | none => .noop
    | some catId =>
      if before.isNone && is_target_channel catId after then
        match after with
        | some a => .startRecording a.id
        | none => .noop
      else if is_target_channel catId before then
        if catId ∈ g.categoryIds then
          if (categoryVoiceChannels g catId).any
              (fun ch => 0 < (nonBotMembers ch).length) then .noop
          else .stopRecording
        else .noop
      else .noop

/-- `true` iff the router decided to start recording. -/
def isStart : RouterAction → Bool
  | .startRecording _ => true
  | _ => false

/-! #### Claim C5 (start predicate) -/

/-- Claim C5, counterexample.  The claim states the router starts exactly
when `beforeChannel` was empty **or foreign** and `afterChannel` is in the
configured category.  Concretely: configured category 1; the member moves
from channel 5 in foreign category 99 into channel 7 of category 1.  The
claim demands `StartRequested`, but the code produces no start (it requires
`before.channel` to be `None`): the decision is `noop`. -/
theorem router_no_start_from_foreign_channel :
    on_voice_state_update ⟨[1], [⟨7, some 1, [⟨false⟩]⟩]⟩ ⟨some 1, some 5⟩
        false (some ⟨5, some 99⟩) (some ⟨7, some 1⟩) = .noop
    ∧ (⟨5, some 99⟩ : ChanRef).categoryId ≠ some 1
    ∧ is_target_channel 1 (some ⟨7, some 1⟩) = true := by
  refine ⟨by decide, by decide, by decide⟩

/-- Claim C5, amended: for a non-bot subject in a community with configured
voice category, the router produces `StartRequested` exactly when
`beforeChannel` was **empty** (the subject was in no channel) and
`afterChannel` belongs to the configured category; in particular a
notification whose `beforeChannel` was also in the category produces no
start, as claimed, but neither does one whose `beforeChannel` was a
foreign channel. -/
theorem router_start_iff_before_empty (g : Guild) (settings : Settings)
    (catId : Nat) (h : settings.voice_category_id = some catId)
    (before after : Option ChanRef) :
    isStart (on_voice_state_update g settings false before after) = true
    ↔ (before = none ∧ is_target_channel catId after = true) := by
  unfold on_voice_state_update
  rw [h]
  cases before with
  | none =>
    simp only [Option.isNone_none, Bool.true_and]
    cases hT : is_target_channel catId after with
    | false => simp [isStart, hT, is_target_channel]
    | true =>
      cases after with
      | none => simp [is_target_channel] at hT
      | some a => simp [isStart]
  | some b =>
    simp only [Option.isNone_some, Bool.false_and, if_neg Bool.false_ne_true]
    constructor
    · intro hc
      by_cases hb : is_target_channel catId (some b) = true
      · rw [if_pos hb] at hc
        by_cases hg : catId ∈ g.categoryIds
        · rw [if_pos hg] at hc
          by_cases hm : (categoryVoiceChannels g catId).any
              (fun ch => 0 < (nonBotMembers ch).length) = true
          · rw [if_pos hm] at hc; exact absurd hc (by simp [isStart])
          · rw [if_neg hm] at hc; exact absurd hc (by simp [isStart])
        · rw [if_neg hg] at hc; exact absurd hc (by simp [isStart])
      · rw [if_neg hb] at hc; exact absurd hc (by simp [isStart])
    · intro hc; exact absurd hc.1 (by simp)

/-- Claim C5, witness for the amended theorem: joining channel 7 of the
configured category 1 from no channel is a start. -/
theorem router_start_iff_before_empty_witness :
    ((⟨some 1, some 5⟩ : Settings).voice_category_id = some 1)
    ∧ (isStart (on_voice_state_update ⟨[1], [⟨7, some 1, [⟨false⟩]⟩]⟩
          ⟨some 1, some 5⟩ false none (some ⟨7, some 1⟩)) = true
        ↔ ((none : Option ChanRef) = none
            ∧ is_target_channel 1 (some ⟨7, some 1⟩) = true)) :=
  ⟨rfl, router_start_iff_before_empty ⟨[1], [⟨7, some 1, [⟨false⟩]⟩]⟩
      ⟨some 1, some 5⟩ 1 rfl none (some ⟨7, some 1⟩)⟩

/-! #### Claim C6 (stop predicate) -/

/-- Claim C6: for a non-bot subject whose `beforeChannel` belonged to the
configured category (which the guild resolves), the router produces
`StopRequested` exactly when, on the current occupancy, every voice channel
of the configured category has only bot members; otherwise no stop. -/
theorem router_stop_iff_category_empty (g : Guild) (settings : Settings)
    (catId : Nat) (b : ChanRef) (after : Option ChanRef)
    (hcat : settings.voice_category_id = some catId)
    (hb : b.categoryId = some catId)
    (hfound : catId ∈ g.categoryIds) :
    on_voice_state_update g settings false (some b) after = .stopRecording
    ↔ ∀ ch ∈ categoryVoiceChannels g catId, ∀ m ∈ ch.members,
        m.isBot = true := by
  unfold on_voice_state_update
  rw [hcat]
  have hbt : is_target_channel catId (some b) = true := by
    simp [is_target_channel, hb]
  simp only [Option.isNone_some, Bool.false_and, if_neg Bool.false_ne_true,
    hbt, if_pos hfound, if_true]
  by_cases hm : (categoryVoiceChannels g catId).any
      (fun ch => 0 < (nonBotMembers ch).length) = true
  · rw [if_pos hm]
    simp only [List.any_eq_true, decide_eq_true_eq] at hm
    obtain ⟨ch, hch, hpos⟩ := hm
    have : ∃ m ∈ ch.members, m.isBot = false := by
      rcases List.exists_mem_of_length_pos hpos with ⟨m, hmem⟩
      have := List.mem_filter.mp hmem
      exact ⟨m, this.1, by simpa using this.2⟩
    constructor
    · intro hc; exact absurd hc (by simp)
    · intro hall
      obtain ⟨m, hmem, hbot⟩ := this
      have := hall ch hch m hmem
      rw [this] at hbot; exact absurd hbot (by simp)
  · rw [if_neg hm]
    simp only [List.any_eq_true, decide_eq_true_eq, not_exists] at hm
    push_neg at hm
    constructor
    · intro _ ch hch m hmem
      have hlen := hm ch hch
      have hnil : nonBotMembers ch = [] := by
        cases hn : nonBotMembers ch with
        | nil => rfl
        | cons x xs => rw [hn] at hlen; simp at hlen
      by_contra hmb
      have : m ∈ nonBotMembers ch :=
        List.mem_filter.mpr ⟨hmem, by simp [Bool.not_eq_true] at hmb; simp [hmb]⟩
      rw [hnil] at this; exact absurd this (List.not_mem_nil m)
    · intro _; rfl

/-- Claim C6, witness: the last non-bot member left channel 7 of configured
category 1; the only category channel now holds a single bot, so the router
stops. -/
theorem router_stop_iff_category_empty_witness :
    ((⟨some 1, some 5⟩ : Settings).voice_category_id = some 1)
    ∧ ((⟨7, some 1⟩ : ChanRef).categoryId = some 1)
    ∧ (1 ∈ (⟨[1], [⟨7, some 1, [⟨true⟩]⟩]⟩ : Guild).categoryIds)
    ∧ (on_voice_state_update ⟨[1], [⟨7, some 1, [⟨true⟩]⟩]⟩ ⟨some 1, some 5⟩
          false (some ⟨7, some 1⟩) none = .stopRecording
        ↔ ∀ ch ∈ categoryVoiceChannels ⟨[1], [⟨7, some 1, [⟨true⟩]⟩]⟩ 1,
            ∀ m ∈ ch.members, m.isBot = true) :=
  ⟨rfl, rfl, by decide,
   router_stop_iff_category_empty ⟨[1], [⟨7, some 1, [⟨true⟩]⟩]⟩
     ⟨some 1, some 5⟩ 1 ⟨7, some 1⟩ none rfl rfl (by decide)⟩

/-! ### Concurrent `start_recording` (src/main.py, lines 234-264)

`start_recording` runs on the asyncio event loop.  Its body has exactly one
suspension point, `await voice_channel.connect()`; code between suspension
points executes atomically under cooperative scheduling.  We therefore
split the function into two atomic blocks:

* block 1 (`ready → suspended | finished`): the guard
  `if guild_id in recording_states: return`; on passing, the task suspends
  in `connect()`;
* block 2 (`suspended → finished`): `connect()` has returned a live voice
  client; `vc.start_recording(...)` is called and
  `recording_states[guild_id] = ...` is assigned (an overwrite if the key
  is already present — the dict keeps one entry per guild).

Two tasks A and B both running `start_recording` for the same guild are
driven by an explicit schedule (a list of task ids), which models the event
loop's interleaving.  `_start_recording` of the `TranscriptionBot` revision
(src/gemini_client.py lines 123-164) has the same guard/await/register
shape and is covered by the same model. -/

/-- Program counter of one `start_recording` task. -/
inductive StartPC where
  | ready
  | suspended
  | finished
  deriving DecidableEq

/-- Shared state touched by `start_recording`: the keys of
`recording_states`, the number of completed `connect()` calls (live voice
connections established), and the number of `vc.start_recording` calls. -/
structure StartWorld where
  sessions : List Nat
  connects : Nat
  recordingsStarted : Nat
  deriving DecidableEq

/-- One atomic block of `start_recording(guild)` for guild `g`, as
described above. -/
def startStep (g : Nat) : StartWorld × StartPC → StartWorld × StartPC
  | (w, .ready) =>
      if g ∈ w.sessions then (w, .finished) else (w, .suspended)
  | (w, .suspended) =>
      (⟨if g ∈ w.sessions then w.sessions else g :: w.sessions,
        w.connects + 1, w.recordingsStarted + 1⟩, .finished)
  | (w, .finished) => (w, .finished)

/-- Which of the two concurrent tasks the scheduler runs next. -/
inductive TaskId where
  | A
  | B
  deriving DecidableEq

/-- Joint state of the shared world and the two tasks. -/
structure TwoStartState where
  world : StartWorld
  pcA : StartPC
  pcB : StartPC
  deriving DecidableEq

/-- Run the next atomic block of the scheduled task. -/
def schedStep (g : Nat) (s : TwoStartState) : TaskId → TwoStartState
  | .A =>
      let r := startStep g (s.world, s.pcA)
      ⟨r.1, r.2, s.pcB⟩
  | .B =>
      let r := startStep g (s.world, s.pcB)
      ⟨r.1, s.pcA, r.2⟩

/-- Execute a schedule from the idle initial state (no session registered,
no connection, both tasks about to enter `start_recording(g)`). -/
def runSchedule (g : Nat) (sched : List TaskId) : TwoStartState :=
  sched.foldl (schedStep g) ⟨⟨[], 0, 0⟩, .ready, .ready⟩

/-! #### Claim C2 (at most one session; double start is a no-op) -/

/-- Claim C2, failing execution.  Under the interleaving
A-guard, B-guard, A-resume, B-resume — both guards run before either
`connect()` completes — both tasks pass the
`if guild_id in recording_states` check, both establish a voice connection
and both call `vc.start_recording`: two Idle-to-Connecting-to-Recording
transitions for one community, the second session entry overwriting the
first (whose live connection is orphaned).  The claim requires the second
call to be a no-op even at this interleaving.  Under the serialized
schedule A-guard, A-resume, B-guard the second call is a no-op, which is
the behaviour the guard was written for. -/
theorem start_recording_interleaved_double_connect :
    (runSchedule 1 [.A, .B, .A, .B]).world.connects = 2
    ∧ (runSchedule 1 [.A, .B, .A, .B]).world.recordingsStarted = 2
    ∧ (runSchedule 1 [.A, .B, .A, .B]).world.sessions = [1]
    ∧ (runSchedule 1 [.A, .A, .B]).world.connects = 1
    ∧ (runSchedule 1 [.A, .A, .B]).world.recordingsStarted = 1
    ∧ (runSchedule 1 [.A, .A, .B]).pcB = .finished := by
  refine ⟨rfl, rfl, rfl, rfl, rfl, rfl⟩

/-! ### Audio capture sink and the merge loop

The per-speaker byte buffers live in `sink.audio_data`, an
insertion-ordered dictionary from user id to an accumulating audio buffer.
A sink is embedded as an association list in insertion order; a chunk is a
`List Nat` of bytes. -/

/-- The sink's `audio_data`: speakers in first-seen order, each with their
chunks in arrival order. -/
abbrev Sink := List (Nat × List (List Nat))

/-- Modelled from the spec: `append(speakerID, chunk)` of the Audio Capture
Sink (section 4.3).  The append itself lives in the platform library's
sink (`discord.sinks`), outside this repository's sources; it writes the
chunk into an insertion-ordered per-speaker dictionary: a first chunk from
a speaker adds the speaker at the end, later chunks append to that
speaker's buffer. -/
def sinkAppend (s : Sink) (speaker : Nat) (chunk : List Nat) : Sink :=
  if speaker ∈ s.map Prod.fst then
    s.map (fun p => if p.1 = speaker then (p.1, p.2 ++ [chunk]) else p)
  else s ++ [(speaker, [chunk])]

/-- The sink state after a sequence of `append` calls on a fresh sink. -/
def buildSink (appends : List (Nat × List Nat)) : Sink :=
  appends.foldl (fun s pc => sinkAppend s pc.1 pc.2) []

/-- src/main.py lines 309-312 (and src/gemini_client.py lines 216-224):
`combined_audio = b""; for user_id, audio in sink.audio_data.items():
combined_audio += <that speaker's accumulated bytes>`. -/
def mergeAudio (s : Sink) : List Nat :=
  (s.map (fun p => p.2.flatten)).flatten

/-- The drain operation as implemented by the merge loop: it reads the
per-speaker buffers and concatenates them, and it performs no clearing —
`sink.audio_data` is left exactly as it was (the sink object is merely
dropped afterwards). -/
def drainImpl (s : Sink) : List Nat × Sink :=
  (mergeAudio s, s)

/-- Spec-side helper: fold of first-seen dedup. -/
def addSeen (acc : List Nat) (x : Nat) : List Nat :=
  if x ∈ acc then acc else acc ++ [x]

/-- Spec-side: the speakers in order of first observation. -/
def firstSeen (l : List Nat) : List Nat :=
  l.foldl addSeen []

/-- Spec-side: the chunks a given speaker contributed, in arrival order. -/
def chunksOf (appends : List (Nat × List Nat)) (x : Nat) : List (List Nat) :=
  (appends.filter (fun pc => pc.1 = x)).map Prod.snd

/-- Spec-side: the sink an append sequence ought to produce — speakers in
first-seen order, each paired with their chunks in arrival order. -/
def canonicalSink (l : List (Nat × List Nat)) : Sink :=
  (firstSeen (l.map Prod.fst)).map (fun x => (x, chunksOf l x))

lemma mem_foldl_addSeen (l : List Nat) :
    ∀ (acc : List Nat) (y : Nat),
      y ∈ l.foldl addSeen acc ↔ y ∈ acc ∨ y ∈ l := by
  induction l with
  | nil => intro acc y; simp
  | cons a t ih =>
    intro acc y
    rw [List.foldl_cons, ih]
    unfold addSeen
    by_cases ha : a ∈ acc
    · rw [if_pos ha]
      constructor
      · intro h
        cases h with
        | inl h => exact Or.inl h
        | inr h => exact Or.inr (List.mem_cons_of_mem a h)
      · intro h
        cases h with
        | inl h => exact Or.inl h
        | inr h =>
          cases List.mem_cons.mp h with
          | inl h => exact Or.inl (h ▸ ha)
          | inr h => exact Or.inr h
    · rw [if_neg ha]
      simp only [List.mem_append, List.mem_singleton, List.mem_cons]
      tauto

lemma mem_firstSeen (l : List Nat) (y : Nat) : y ∈ firstSeen l ↔ y ∈ l := by
  unfold firstSeen
  rw [mem_foldl_addSeen]
  simp

lemma firstSeen_append_one (l : List Nat) (x : Nat) :
    firstSeen (l ++ [x]) = addSeen (firstSeen l) x := by
  unfold firstSeen
  rw [List.foldl_append]
  rfl

lemma chunksOf_append_self (l : List (Nat × List Nat)) (x : Nat)
    (c : List Nat) :
    chunksOf (l ++ [(x, c)]) x = chunksOf l x ++ [c] := by
  unfold chunksOf
  rw [List.filter_append, List.map_append]
  simp

lemma chunksOf_append_ne (l : List (Nat × List Nat)) (x y : Nat)
    (c : List Nat) (h : y ≠ x) :
    chunksOf (l ++ [(x, c)]) y = chunksOf l y := by
  unfold chunksOf
  rw [List.filter_append, List.map_append]
  simp [h.symm]

lemma chunksOf_eq_nil_of_not_mem (l : List (Nat × List Nat)) (x : Nat)
    (h : x ∉ l.map Prod.fst) :
    chunksOf l x = [] := by
  unfold chunksOf
  rw [List.map_eq_nil_iff, List.filter_eq_nil_iff]
  intro p hp
  simp only [decide_eq_true_eq]
  intro hx
  exact h (hx ▸ List.mem_map_of_mem Prod.fst hp)

lemma canonicalSink_map_fst (l : List (Nat × List Nat)) :
    (canonicalSink l).map Prod.fst = firstSeen (l.map Prod.fst) := by
  unfold canonicalSink
  rw [List.map_map]
  have h : (Prod.fst ∘ fun x => (x, chunksOf l x)) = @id Nat := rfl
  rw [h, List.map_id]

lemma buildSink_eq_canonical (l : List (Nat × List Nat)) :
    buildSink l = canonicalSink l := by
  induction l using List.reverseRecOn with
  | nil => rfl
  | append_singleton l p ih =>
    obtain ⟨x, c⟩ := p
    have hstep : buildSink (l ++ [(x, c)]) = sinkAppend (buildSink l) x c := by
      unfold buildSink
      rw [List.foldl_append]
      rfl
    rw [hstep, ih]
    unfold sinkAppend
    rw [canonicalSink_map_fst]
    have hmap : (l ++ [(x, c)]).map Prod.fst = l.map Prod.fst ++ [x] := by
      simp
    by_cases hx : x ∈ l.map Prod.fst
    · have hxf : x ∈ firstSeen (l.map Prod.fst) := (mem_firstSeen _ _).mpr hx
      rw [if_pos hxf]
      unfold canonicalSink
      rw [hmap, firstSeen_append_one]
      unfold addSeen
      rw [if_pos hxf, List.map_map]
      apply List.map_congr_left
      intro y _
      by_cases hyx : y = x
      · subst hyx
        simp [Function.comp, chunksOf_append_self]
      · simp [Function.comp, hyx, chunksOf_append_ne l x y c hyx]
    · have hxf : x ∉ firstSeen (l.map Prod.fst) := by
        rw [mem_firstSeen]; exact hx
      rw [if_neg hxf]
      unfold canonicalSink
      rw [hmap, firstSeen_append_one]
      unfold addSeen
      rw [if_neg hxf, List.map_append]
      congr 1
      · apply List.map_congr_left
        intro y hy
        have hyl : y ∈ l.map Prod.fst := (mem_firstSeen _ _).mp hy
        have hyx : y ≠ x := fun h => hx (h ▸ hyl)
        simp [chunksOf_append_ne l x y c hyx]
      · simp [chunksOf_append_self, chunksOf_eq_nil_of_not_mem l x hx]

/-! #### Claim C8 (drain equals first-seen-order concatenation; sink empty
after) -/

/-- Claim C8, counterexample.  After one append of chunk `[10]` by speaker
1 the merge loop returns the bytes, but the sink still holds the data —
nothing clears `audio_data` — so "the sink holds no data after the drain"
fails. -/
theorem drain_leaves_sink_nonempty :
    (drainImpl (buildSink [(1, [10])])).1 = [10]
    ∧ (drainImpl (buildSink [(1, [10])])).2 = [(1, [[10]])]
    ∧ ((drainImpl (buildSink [(1, [10])])).2 : Sink) ≠ [] := by
  refine ⟨rfl, rfl, by decide⟩

/-- Claim C8, amended: for every sequence of append calls, the merge loop's
output equals the concatenation of all speakers' chunks, speakers ordered
by first observation and each speaker's chunks in arrival order — but the
sink is left unchanged by the drain (the code discards the sink object
instead of clearing it), so it does not hold "no data" afterwards. -/
theorem drain_concats_first_seen_order (appends : List (Nat × List Nat)) :
    (drainImpl (buildSink appends)).1
      = ((firstSeen (appends.map Prod.fst)).map
          (fun x => (chunksOf appends x).flatten)).flatten
    ∧ (drainImpl (buildSink appends)).2 = buildSink appends := by
  constructor
  · show mergeAudio (buildSink appends) = _
    rw [buildSink_eq_canonical]
    unfold mergeAudio canonicalSink
    rw [List.map_map]
    rfl
  · rfl

/-! ### Finalizing: `process_recording` (src/main.py, lines 292-347) and
`TranscriptionBot._process_recording` (src/gemini_client.py, lines 178-279)

Both finalize paths are embedded as pure functions over an environment of
oracles (settings lookup, channel resolution, external-call outcomes,
publish success).  Observable output: the remaining session keys, the
number of client calls, and the messages delivered to the text channel. -/

/-- Python truthiness of `str | None`: `None` and the empty string are
falsy (`if not transcription: ...`). -/
def pyFalsy : Option String → Bool
  | none => true
  | some s => s.isEmpty

/-- Oracles consumed by `process_recording` in src/main.py. -/
structure ProcessEnv where
  settings : Settings
  channelFound : Bool
  gen : Nat → Except GenError (Option String)
  enhanceCall : Except GenError (Option String)
  publishOk : Bool

/-- Observable outcome of `process_recording`. -/
structure ProcessResult where
  statesAfter : List Nat
  transcribeCalls : Nat
  enhanceCalls : Nat
  messages : List String
  deriving DecidableEq

/-- src/main.py lines 292-347, `process_recording` with
`send_transcription_result` (lines 350-385) inlined: pop the session and
disconnect first; return if `sink.audio_data` is empty; merge; return if
the merged bytes are empty; transcribe the temp file (which exists — it
was just written); a raised error lands in the outer handler which only
logs; a falsy transcription is logged (`"Transcription failed or empty"`)
and dropped; otherwise enhance (a raised error again only logged), then
send the result text — skipped with only a log when the text channel is
unset, not found, or the send itself fails. -/
def process_recording (states : List Nat) (g : Nat) (sink : Sink)
    (env : ProcessEnv) : ProcessResult :=
  let rest := states.filter (fun x => x ≠ g)
  if sink = [] then ⟨rest, 0, 0, []⟩
  else
    let combined := mergeAudio sink
    if combined = [] then ⟨rest, 0, 0, []⟩
    else
      match (transcribe_audio true env.gen).result with
      | .error _ => ⟨rest, 1, 0, []⟩
      | .ok t =>
        if pyFalsy t then ⟨rest, 1, 0, []⟩
        else
          match enhance_transcription env.enhanceCall (t.getD ("")) with
          | .error _ => ⟨rest, 1, 1, []⟩
          | .ok enhanced =>
            match env.settings.text_channel_id with
            | none => ⟨rest, 1, 1, []⟩
            | some _ =>
              if env.channelFound then
                if env.publishOk then ⟨rest, 1, 1, [enhanced]⟩
                else ⟨rest, 1, 1, []⟩
              else ⟨rest, 1, 1, []⟩

/-- Oracles consumed by the `TranscriptionBot` revision
(src/gemini_client.py): `config` is `config_manager.get_config(guild.id)`,
`sendOk` is whether the success-path `text_channel.send` succeeds,
`errSendOk` whether the error-path send in the `except` handler succeeds. -/
structure TBEnv where
  config : Option Settings
  channelFound : Bool
  gen : Nat → Except GenError (Option String)
  sendOk : Bool
  errSendOk : Bool

/-- Messages the `TranscriptionBot` revision can deliver to the text
channel. -/
inductive TBMessage where
  | success (text : String)
  | transcribeFailed
  | processError
  deriving DecidableEq

/-- src/gemini_client.py lines 201-279,
`TranscriptionBot._process_recording`: resolve config and text channel
(warn and return when missing); merge the audio; return when empty;
transcribe; on a truthy transcription send the transcript file (a raised
send error falls into the outer handler, which sends a synthesized error
message); on a falsy transcription send the fixed failure message; a
raised transcription error falls into the outer handler, which re-resolves
the config/channel and sends a synthesized error message.  Returns the
delivered messages and the number of transcribe calls. -/
def tb_process_recording (sink : Sink) (env : TBEnv) :
    List TBMessage × Nat :=
  match env.config with
  | none => ([], 0)
  | some cfg =>
    match cfg.text_channel_id with
    | none => ([], 0)
    | some _ =>
      if env.channelFound then
        let combined := mergeAudio sink
        if combined = [] then ([], 0)
        else
          match (transcribe_audio true env.gen).result with
          | .error _ => (if env.errSendOk then [.processError] else [], 1)
          | .ok t =>
            if pyFalsy t then ([.transcribeFailed], 1)
            else if env.sendOk then ([.success (t.getD (""))], 1)
            else (if env.errSendOk then [.processError] else [], 1)
      else ([], 0)

/-- src/gemini_client.py lines 178-199,
`TranscriptionBot._recording_finished_callback`: return when no session is
registered; otherwise disconnect, delete the session, and process the
recording only when `sink.audio_data` is non-empty. -/
def tb_recording_finished (states : List Nat) (g : Nat) (sink : Sink)
    (env : TBEnv) : List Nat × (List TBMessage × Nat) :=
  if g ∈ states then
    let rest := states.filter (fun x => x ≠ g)
    if sink = [] then (rest, ([], 0))
    else (rest, tb_process_recording sink env)
  else (states, ([], 0))

/-! #### Claim C3 (Finalizing errors are reported, never dropped) -/

/-- Claim C3, counterexample.  Session for guild 1 exists; the capture
buffer is non-empty (one chunk `[10]`); the result channel (id 5) is
configured and found; publishing works.  The transcription returns `None`
(failure).  The claim demands a synthesized failure message on the result
channel, but `process_recording` in src/main.py delivers no message at all
(`"Transcription failed or empty"` is only logged) — while the session
does return to Idle. -/
theorem process_recording_drops_failure_message :
    (process_recording [1] 1 [(1, [[10]])]
        ⟨⟨some 9, some 5⟩, true, fun _ => .ok none, .ok (some ("x")), true⟩).messages
      = []
    ∧ (process_recording [1] 1 [(1, [[10]])]
        ⟨⟨some 9, some 5⟩, true, fun _ => .ok none, .ok (some ("x")), true⟩).transcribeCalls
      = 1
    ∧ (process_recording [1] 1 [(1, [[10]])]
        ⟨⟨some 9, some 5⟩, true, fun _ => .ok none, .ok (some ("x")), true⟩).statesAfter
      = []
    ∧ mergeAudio [(1, [[10]])] ≠ [] := by
  refine ⟨rfl, rfl, rfl, by decide⟩

/-- Claim C3, amended: in the `TranscriptionBot` revision every Finalizing
failure on a non-empty capture buffer — a raised transcription error, an
empty/`None` transcription, or a failing publish of the success result —
is reported to the configured result channel as a synthesized failure
message, and the session is removed (Idle) before processing; in the
src/main.py revision the session equally returns to Idle but such failures
are only logged and no failure message reaches the result channel. -/
theorem tb_process_reports_failures (states : List Nat) (g : Nat)
    (sink : Sink) (env : TBEnv) (cfg : Settings) (tc : Nat)
    (h1 : env.config = some cfg) (h2 : cfg.text_channel_id = some tc)
    (h3 : env.channelFound = true) (h4 : env.errSendOk = true)
    (h5 : mergeAudio sink ≠ []) (h6 : g ∈ states) :
    g ∉ (tb_recording_finished states g sink env).1
    ∧ (tb_recording_finished states g sink env).2.1 ≠ []
    ∧ (∀ e, (transcribe_audio true env.gen).result = .error e →
        (tb_recording_finished states g sink env).2.1
          = [TBMessage.processError])
    ∧ ((transcribe_audio true env.gen).result = .ok none →
        (tb_recording_finished states g sink env).2.1
          = [TBMessage.transcribeFailed])
    ∧ (∀ s, env.sendOk = false →
        (transcribe_audio true env.gen).result = .ok (some s) → s ≠ "" →
        (tb_recording_finished states g sink env).2.1
          = [TBMessage.processError]) := by
  have hsink : sink ≠ [] := by
    intro h; exact h5 (by rw [h]; rfl)
  refine ⟨?_, ?_, ?_, ?_, ?_⟩
  · simp [tb_recording_finished, h6, hsink, List.mem_filter]
  · cases hres : (transcribe_audio true env.gen).result with
    | error e =>
      simp [tb_recording_finished, tb_process_recording, h1, h2, h3, h4,
        h5, h6, hsink, hres]
    | ok t =>
      cases ht : pyFalsy t with
      | true =>
        simp [tb_recording_finished, tb_process_recording, h1, h2, h3,
          h5, h6, hsink, hres, ht]
      | false =>
        cases hs : env.sendOk with
        | true =>
          simp [tb_recording_finished, tb_process_recording, h1, h2, h3,
            h5, h6, hsink, hres, ht, hs]
        | false =>
          simp [tb_recording_finished, tb_process_recording, h1, h2, h3,
            h4, h5, h6, hsink, hres, ht, hs]
  · intro e he
    simp [tb_recording_finished, tb_process_recording, h1, h2, h3, h4,
      h5, h6, hsink, he]
  · intro he
    simp [tb_recording_finished, tb_process_recording, h1, h2, h3,
      h5, h6, hsink, he, pyFalsy]
  · intro s hs he hne
    have ht : pyFalsy (some s) = false := by
      unfold pyFalsy
      rw [Bool.eq_false_iff]
      intro hh
      exact hne ((String.isEmpty_iff s).mp hh)
    simp [tb_recording_finished, tb_process_recording, h1, h2, h3, h4,
      h5, h6, hsink, he, ht, hs]

/-- Claim C3, witness for the amended theorem: one session, one chunk,
channel 5 configured and found, transcription raises an internal error —
the synthesized process-error message is delivered and the session is
gone. -/
theorem tb_process_reports_failures_witness :
    ((⟨some (⟨some 9, some 5⟩ : Settings), true,
        fun _ => .error .internalError, true, true⟩ : TBEnv).config
      = some ⟨some 9, some 5⟩)
    ∧ (1 : Nat) ∈ [1]
    ∧ mergeAudio [(1, [[10]])] ≠ []
    ∧ (1 : Nat) ∉ (tb_recording_finished [1] 1 [(1, [[10]])]
        ⟨some ⟨some 9, some 5⟩, true, fun _ => .error .internalError,
          true, true⟩).1
    ∧ (tb_recording_finished [1] 1 [(1, [[10]])]
        ⟨some ⟨some 9, some 5⟩, true, fun _ => .error .internalError,
          true, true⟩).2.1 = [TBMessage.processError] :=
  ⟨rfl, by decide, by decide,
   (tb_process_reports_failures [1] 1 [(1, [[10]])]
      ⟨some ⟨some 9, some 5⟩, true, fun _ => .error .internalError,
        true, true⟩
      ⟨some 9, some 5⟩ 5 rfl rfl rfl rfl (by decide) (by decide)).1,
   (tb_process_reports_failures [1] 1 [(1, [[10]])]
      ⟨some ⟨some 9, some 5⟩, true, fun _ => .error .internalError,
        true, true⟩
      ⟨some 9, some 5⟩ 5 rfl rfl rfl rfl (by decide) (by decide)).2.2.1
     .internalError rfl⟩

/-! #### Claim C9 (empty merged buffer: no client call, Idle, nothing
published) -/

/-- Claim C9: when the merged capture buffer is empty, neither revision
calls the Transcription Client (no transcribe, no enhance), nothing is
published, and the session key is gone (Idle). -/
theorem empty_buffer_no_client_call (states : List Nat) (g : Nat)
    (sink : Sink) (env : ProcessEnv) (tbenv : TBEnv)
    (h : mergeAudio sink = []) :
    (process_recording states g sink env).transcribeCalls = 0
    ∧ (process_recording states g sink env).enhanceCalls = 0
    ∧ (process_recording states g sink env).messages = []
    ∧ g ∉ (process_recording states g sink env).statesAfter
    ∧ tb_process_recording sink tbenv = ([], 0) := by
  have hrest : g ∉ states.filter (fun x => x ≠ g) := by
    intro hmem
    have := (List.mem_filter.mp hmem).2
    simp at this
  have hmain : process_recording states g sink env
      = ⟨states.filter (fun x => x ≠ g), 0, 0, []⟩ := by
    unfold process_recording
    by_cases hs : sink = []
    · rw [if_pos hs]
    · rw [if_neg hs, if_pos h]
  have htb : tb_process_recording sink tbenv = ([], 0) := by
    unfold tb_process_recording
    cases hc1 : tbenv.config with
    | none => rfl
    | some cfg =>
      cases hc2 : cfg.text_channel_id with
      | none => simp [hc2]
      | some tc =>
        cases hc3 : tbenv.channelFound with
        | false => simp [hc2, hc3]
        | true => simp [hc2, hc3, h]
  rw [hmain]
  exact ⟨rfl, rfl, rfl, hrest, htb⟩

/-- Claim C9, witness: a sink holding one speaker whose only chunk is the
empty byte string merges to nothing, so nothing downstream happens. -/
theorem empty_buffer_no_client_call_witness :
    mergeAudio [(1, [[]])] = []
    ∧ (process_recording [1] 1 [(1, [[]])]
        ⟨⟨some 9, some 5⟩, true, fun _ => .ok (some ("t")), .ok none, true⟩).transcribeCalls
      = 0
    ∧ (1 : Nat) ∉ (process_recording [1] 1 [(1, [[]])]
        ⟨⟨some 9, some 5⟩, true, fun _ => .ok (some ("t")), .ok none, true⟩).statesAfter :=
  ⟨rfl,
   (empty_buffer_no_client_call [1] 1 [(1, [[]])]
      ⟨⟨some 9, some 5⟩, true, fun _ => .ok (some ("t")), .ok none, true⟩
      ⟨some ⟨some 9, some 5⟩, true, fun _ => .ok (some ("t")), true, true⟩
      rfl).1,
   (empty_buffer_no_client_call [1] 1 [(1, [[]])]
      ⟨⟨some 9, some 5⟩, true, fun _ => .ok (some ("t")), .ok none, true⟩
      ⟨some ⟨some 9, some 5⟩, true, fun _ => .ok (some ("t")), true, true⟩
      rfl).2.2.2.1⟩

/-! ### Concurrency bound on client calls -/

/-- src/config.py lines 20-24, `BotConfig.api_concurrency`: the
configurable API concurrency, default 3. -/
def api_concurrency_default : Nat := 3

/-- Modelled from the spec: the counting semaphore of section 4.4 gating
in-flight `transcribe`/upload calls.  Only its configuration knob
(`api_concurrency` in src/config.py) and its caller
(`GeminiClient.transcribe_audio`) appear under src/; the semaphore itself
does not.  State: the number of admitted in-flight calls and the queue of
suspended callers, in arrival order. -/
structure SemState where
  inFlight : Nat
  waiting : List Nat
  deriving DecidableEq

/-- Events at the semaphore: a caller arrives wanting a slot, or an
admitted call finishes (releasing its slot — handed straight to the first
waiter, if any). -/
inductive SemEvent where
  | arrive (caller : Nat)
  | finish
  deriving DecidableEq

/-- Modelled from the spec: one semaphore transition for bound `C`.  An
arriving caller is admitted while fewer than `C` calls are in flight and
otherwise suspends at the end of the wait queue (it does not fail); a
finishing call hands its slot to the first waiter, if any. -/
def semStep (C : Nat) (s : SemState) : SemEvent → SemState
  | .arrive c =>
      if s.inFlight < C then ⟨s.inFlight + 1, s.waiting⟩
      else ⟨s.inFlight, s.waiting ++ [c]⟩
  | .finish =>
      match s.waiting with
      | [] => ⟨s.inFlight - 1, []⟩
      | _ :: ws => ⟨s.inFlight, ws⟩

/-- Run a sequence of semaphore events from the empty initial state. -/
def semRun (C : Nat) (evs : List SemEvent) : SemState :=
  evs.foldl (semStep C) ⟨0, []⟩

lemma semStep_inFlight_le (C : Nat) (s : SemState) (e : SemEvent)
    (h : s.inFlight ≤ C) : (semStep C s e).inFlight ≤ C := by
  cases e with
  | arrive c =>
    simp only [semStep]
    by_cases hc : s.inFlight < C
    · rw [if_pos hc]; exact hc
    · rw [if_neg hc]; exact h
  | finish =>
    simp only [semStep]
    cases s.waiting with
    | nil => exact Nat.le_trans (Nat.sub_le _ _) h
    | cons w ws => exact h

lemma semRun_from_le (C : Nat) (evs : List SemEvent) :
    ∀ s : SemState, s.inFlight ≤ C →
      (evs.foldl (semStep C) s).inFlight ≤ C := by
  induction evs with
  | nil => intro s h; exact h
  | cons e t ih =>
    intro s h
    rw [List.foldl_cons]
    exact ih _ (semStep_inFlight_le C s e h)

/-! #### Claim C7 (bounded concurrency, waiters suspend) -/

/-- Claim C7 (spec-modelled): for every event sequence, the semaphore of
bound `C` admits at most `C` concurrent in-flight calls; a caller arriving
while `C` calls are in flight is appended to the wait queue — suspended,
not failed — with the in-flight count unchanged; and the configured
default bound is 3 (`BotConfig.api_concurrency`). -/
theorem semaphore_bound_and_suspend (C : Nat) (evs : List SemEvent) :
    (semRun C evs).inFlight ≤ C
    ∧ (∀ s : SemState, ∀ c : Nat, s.inFlight = C →
        (semStep C s (.arrive c)).inFlight = C
        ∧ (semStep C s (.arrive c)).waiting = s.waiting ++ [c])
    ∧ api_concurrency_default = 3 := by
  refine ⟨semRun_from_le C evs ⟨0, []⟩ (Nat.zero_le C), ?_, rfl⟩
  intro s c hfull
  have hnot : ¬ s.inFlight < C := by rw [hfull]; exact Nat.lt_irrefl C
  simp only [semStep]
  rw [if_neg hnot]
  exact ⟨hfull, rfl⟩

/-- Claim C7, witness: with the default bound 3, after three admissions a
fourth caller waits and the in-flight count stays 3. -/
theorem semaphore_bound_and_suspend_witness :
    (semRun 3 [.arrive 0, .arrive 1, .arrive 2, .arrive 3]).inFlight ≤ 3
    ∧ (semStep 3 ⟨3, []⟩ (.arrive 4)).inFlight = 3
    ∧ (semStep 3 ⟨3, []⟩ (.arrive 4)).waiting = [4] :=
  ⟨(semaphore_bound_and_suspend 3
      [.arrive 0, .arrive 1, .arrive 2, .arrive 3]).1,
   ((semaphore_bound_and_suspend 3 []).2.1 ⟨3, []⟩ 4 rfl).1,
   ((semaphore_bound_and_suspend 3 []).2.1 ⟨3, []⟩ 4 rfl).2⟩

end DTG
